import Mathlib

/-!
Verification of the PolMark parity-arbitrage bot core.

Shallow embedding of the Python sources:
* `src/orderbook/book.py`   — `BookSide`, `TokenBook`, `MarketBook`
* `src/signals/parity_detector.py` — `ParityDetector`, `ConvergenceDetector`
* `src/exec/executor.py`    — `LegOrder`, `ExecutionResult`, `PairedExecutor`
* `src/risk/manager.py`     — `RiskManager`

`Decimal` values are modelled as `ℚ` (the source uses exact decimal
arithmetic).  Wall-clock time (`time.time()`) is passed explicitly as a `ℚ`
parameter `now`; the current date string (`time.strftime`) is passed as
`today`.  Network calls (`get_price`, `post_order`) are modelled by an
environment function `bids : String → ℚ` giving the venue best bid per
token, and by returning the list of orders that would be posted.
Log/exception message strings that the code only feeds to the logger are
not modelled.
-/

namespace PolMark

/-! ## Orderbook (`src/orderbook/book.py`) -/

/-- Sort order of a `SortedDict` side: bids descending (`key = -x`),
asks ascending.  `keyLt isBid a b` says price `a` is ordered strictly
before price `b` on that side. -/
def keyLt : Bool → ℚ → ℚ → Prop
  | true, a, b => b < a
  | false, a, b => a < b

instance : (isBid : Bool) → (a b : ℚ) → Decidable (keyLt isBid a b)
  | true, a, b => inferInstanceAs (Decidable (b < a))
  | false, a, b => inferInstanceAs (Decidable (a < b))

/-- `SortedDict` insertion/assignment `levels[price] = size` on an ordered
association list: replaces the value at an existing key, otherwise inserts
at the sorted position. -/
def insertLevel (isBid : Bool) (p s : ℚ) : List (ℚ × ℚ) → List (ℚ × ℚ)
  | [] => [(p, s)]
  | x :: rest =>
    if p = x.1 then (p, s) :: rest
    else if keyLt isBid p x.1 then (p, s) :: x :: rest
    else x :: insertLevel isBid p s rest

/-- `levels.pop(price, None)`: removes the entry at `price` (keys are
unique under the side invariant, so removing every occurrence agrees
with the dict pop). -/
def removeLevel (p : ℚ) : List (ℚ × ℚ) → List (ℚ × ℚ)
  | [] => []
  | x :: rest => if x.1 = p then removeLevel p rest else x :: removeLevel p rest

/-- `BookSide`: one side of an orderbook, an ordered price → size map. -/
structure BookSide where
  is_bid : Bool
  levels : List (ℚ × ℚ)
deriving DecidableEq

/-- `BookSide.update`: size ≤ 0 removes the level, otherwise upserts it. -/
def BookSide.update (side : BookSide) (price size : ℚ) : BookSide :=
  if size ≤ 0 then { side with levels := removeLevel price side.levels }
  else { side with levels := insertLevel side.is_bid price size side.levels }

/-- `BookSide.set_snapshot`: clear, then assign every level with positive
size, in input order. -/
def BookSide.set_snapshot (side : BookSide) (ls : List (ℚ × ℚ)) : BookSide :=
  { side with
      levels := ls.foldl
        (fun acc x => if 0 < x.2 then insertLevel side.is_bid x.1 x.2 acc else acc) [] }

/-- `BookSide.best_price`: first key, `None` if empty. -/
def BookSide.best_price (side : BookSide) : Option ℚ :=
  side.levels.head?.map Prod.fst

/-- `BookSide.best_size`: size at the first key, `None` if empty. -/
def BookSide.best_size (side : BookSide) : Option ℚ :=
  side.levels.head?.map Prod.snd

/-- One stream mutation applied to a book side: a `price_change` delta or a
full `book` snapshot. -/
inductive BookOp where
  | update (price size : ℚ)
  | snapshot (ls : List (ℚ × ℚ))
deriving DecidableEq

def applyBookOp (side : BookSide) : BookOp → BookSide
  | .update p s => side.update p s
  | .snapshot ls => side.set_snapshot ls

def applyBookOps (side : BookSide) (ops : List BookOp) : BookSide :=
  ops.foldl applyBookOp side

/-- The ladder invariant of one side: every retained size is positive and
the keys are strictly sorted in the side's order. -/
def LevelsInv (isBid : Bool) (l : List (ℚ × ℚ)) : Prop :=
  (∀ x ∈ l, 0 < x.2) ∧ l.Pairwise (fun a b => keyLt isBid a.1 b.1)

/-- `TokenBook`: orderbook for a single token. -/
structure TokenBook where
  token_id : String
  bids : BookSide
  asks : BookSide
  last_update : ℚ
deriving DecidableEq

def TokenBook.best_bid (b : TokenBook) : Option ℚ := b.bids.best_price

def TokenBook.best_ask (b : TokenBook) : Option ℚ := b.asks.best_price

/-- `TokenBook.age_seconds`: seconds since last update; `none` models the
`float(\x22inf\x22)` returned when the book was never updated
(`last_update == 0`). -/
def TokenBook.age_seconds (b : TokenBook) (now : ℚ) : Option ℚ :=
  if b.last_update = 0 then none else some (now - b.last_update)

/-- Comparison `age > cutoff` where `none` is `+∞` (so always greater). -/
def ageGt (age : Option ℚ) (cutoff : ℚ) : Bool :=
  match age with
  | none => true
  | some a => decide (cutoff < a)

/-- `MarketBook`: combined YES/NO orderbook for a binary market. -/
structure MarketBook where
  condition_id : String
  yes_token_id : String
  no_token_id : String
  yes_book : TokenBook
  no_book : TokenBook
  tick_size : ℚ
  neg_risk : Bool
deriving DecidableEq

def MarketBook.yes_best_ask (m : MarketBook) : Option ℚ := m.yes_book.best_ask

def MarketBook.no_best_ask (m : MarketBook) : Option ℚ := m.no_book.best_ask

/-- `MarketBook.get_executable_size`: min of the YES and NO top-of-book ask
sizes, `None` if either is missing. -/
def MarketBook.get_executable_size (m : MarketBook) : Option ℚ :=
  match m.yes_book.asks.best_size, m.no_book.asks.best_size with
  | some ys, some ns => some (min ys ns)
  | _, _ => none

/-- `MarketBook.is_stale`: either book older than 60 seconds. -/
def MarketBook.is_stale (m : MarketBook) (now : ℚ) : Bool :=
  ageGt (m.yes_book.age_seconds now) 60 || ageGt (m.no_book.age_seconds now) 60

/-! ## Parity detector (`src/signals/parity_detector.py`) -/

structure FeeConfig where
  taker_fee_rate : ℚ
deriving DecidableEq

structure TradingConfig where
  min_edge : ℚ
  slippage_buffer : ℚ
  max_notional_per_trade : ℚ
  max_open_pairs : Nat
  cooldown_ms : ℚ
deriving DecidableEq

structure ParitySignal where
  condition_id : String
  yes_token_id : String
  no_token_id : String
  yes_ask : ℚ
  no_ask : ℚ
  combined_cost : ℚ
  gross_edge : ℚ
  net_edge : ℚ
  max_size : ℚ
  timestamp : ℚ
deriving DecidableEq

/-- `ParityDetector.calculate_fees`. -/
def calculate_fees (fees : FeeConfig) (yes_price no_price size : ℚ) : ℚ :=
  if fees.taker_fee_rate = 0 then 0
  else
    fees.taker_fee_rate * min yes_price (1 - yes_price) * size
      + fees.taker_fee_rate * min no_price (1 - no_price) * size

/-- `ParityDetector.check_market`. -/
def check_market (fees : FeeConfig) (trading : TradingConfig) (now : ℚ)
    (m : MarketBook) : Option ParitySignal :=
  if m.is_stale now then none
  else
    match m.yes_best_ask, m.no_best_ask with
    | some yes_ask, some no_ask =>
      let combined_cost := yes_ask + no_ask
      let gross_edge := 1 - combined_cost
      if gross_edge ≤ 0 then none
      else
        match m.get_executable_size with
        | none => none
        | some sz =>
          if sz ≤ 0 then none
          else
            let max_size := min sz (trading.max_notional_per_trade / combined_cost)
            let fee_total := calculate_fees fees yes_ask no_ask max_size
            let fee_per_share := if 0 < max_size then fee_total / max_size else 0
            let net_edge := gross_edge - fee_per_share - trading.slippage_buffer
            some
              { condition_id := m.condition_id
                yes_token_id := m.yes_token_id
                no_token_id := m.no_token_id
                yes_ask := yes_ask
                no_ask := no_ask
                combined_cost := combined_cost
                gross_edge := gross_edge
                net_edge := net_edge
                max_size := max_size
                timestamp := now }
    | _, _ => none

/-- Stable insertion into a list sorted by descending `net_edge`
(equal-edge elements from further right stay behind). -/
def insertByEdge (x : ParitySignal) : List ParitySignal → List ParitySignal
  | [] => [x]
  | y :: ys => if x.net_edge < y.net_edge then y :: insertByEdge x ys else x :: y :: ys

/-- Stable sort by descending `net_edge`, modelling Python's stable
`signals.sort(key=lambda s: s.net_edge, reverse=True)`. -/
def sortByEdge : List ParitySignal → List ParitySignal
  | [] => []
  | x :: xs => insertByEdge x (sortByEdge xs)

/-- `ParityDetector.scan_all_markets`: per-market check, keep signals with
`net_edge ≥ min_edge` (in market iteration order), stable-sort by
descending net edge. -/
def scan_all_markets (fees : FeeConfig) (trading : TradingConfig) (now : ℚ)
    (markets : List MarketBook) : List ParitySignal :=
  sortByEdge ((markets.filterMap (check_market fees trading now)).filter
    (fun s => decide (trading.min_edge ≤ s.net_edge)))

/-- `ParityDetector.get_best_opportunity`. -/
def get_best_opportunity (fees : FeeConfig) (trading : TradingConfig) (now : ℚ)
    (markets : List MarketBook) : Option ParitySignal :=
  (scan_all_markets fees trading now markets).head?

/-- `ConvergenceDetector.should_exit`; the market argument is the result of
`orderbook.get_market(condition_id)`. -/
def should_exit (threshold : ℚ) (now : ℚ) (mkt : Option MarketBook) : Bool × String :=
  match mkt with
  | none => (true, "market_not_found")
  | some market =>
    match market.yes_book.best_bid, market.no_book.best_bid with
    | some yes_bid, some no_bid =>
      if 1 - threshold ≤ yes_bid + no_bid then (true, "spread_converged")
      else if market.is_stale now then (false, "stale_data")
      else (false, "hold")
    | _, _ => (false, "no_bids")

/-! ## Dual-leg executor (`src/exec/executor.py`)

Constructor names: `partFill` stands for the source's `PARTIAL` status,
`inProgress` for `IN_PROGRESS`; the remaining names match the source
lower-cased. -/

inductive LegStatus where
  | pending
  | submitted
  | partFill
  | filled
  | cancelled
  | failed
deriving DecidableEq

inductive ExecutionStatus where
  | pending
  | inProgress
  | complete
  | partFill
  | failed
  | unwinding
deriving DecidableEq

structure LegOrder where
  leg_id : String
  token_id : String
  side : String
  price : ℚ
  size : ℚ
  filled_size : ℚ
  status : LegStatus
deriving DecidableEq

structure ExecutionResult where
  execution_id : String
  condition_id : String
  yes_leg : LegOrder
  no_leg : LegOrder
  status : ExecutionStatus
  entry_cost : ℚ
  expected_profit : ℚ
  actual_filled_size : ℚ
  error : Option String
deriving DecidableEq

/-- `ExecutionResult.needs_unwind`. -/
def ExecutionResult.needs_unwind (r : ExecutionResult) : Bool :=
  decide (r.yes_leg.filled_size ≠ r.no_leg.filled_size) &&
    (decide (0 < r.yes_leg.filled_size) || decide (0 < r.no_leg.filled_size))

/-- An order posted to the venue by the executor. -/
structure PostedOrder where
  token_id : String
  side : String
  price : ℚ
  size : ℚ
deriving DecidableEq

/-- `PairedExecutor._sell_position`: reads the venue best bid for the token
(`bids token_id`), raises (`none`) when the bid is ≤ 0, otherwise posts a
GTC SELL at that bid. -/
def sell_position (bids : String → ℚ) (token_id : String) (size : ℚ) :
    Option PostedOrder :=
  if bids token_id ≤ 0 then none
  else some { token_id := token_id, side := "SELL", price := bids token_id, size := size }

/-- `PairedExecutor._unwind_partial`: sell the excess on the over-filled
side at the current best bid; on success set the achieved matched size to
`min(yes_filled, no_filled)` and the status to `partFill`
(source `PARTIAL`) or `failed`; a raised exception (`sell_position`
returning `none`) leaves the result as it was, with an error recorded.
Returns the updated result and the list of orders posted. -/
def unwind_partial_fill (bids : String → ℚ) (r : ExecutionResult) :
    ExecutionResult × List PostedOrder :=
  let yes_filled := r.yes_leg.filled_size
  let no_filled := r.no_leg.filled_size
  let sellStep : Option (List PostedOrder) :=
    if no_filled < yes_filled then
      (sell_position bids r.yes_leg.token_id (yes_filled - no_filled)).map (fun o => [o])
    else if yes_filled < no_filled then
      (sell_position bids r.no_leg.token_id (no_filled - yes_filled)).map (fun o => [o])
    else some []
  match sellStep with
  | none => ({ r with error := some "Unwind failed" }, [])
  | some orders =>
    let matched := min yes_filled no_filled
    ({ r with
        actual_filled_size := matched,
        status := if 0 < matched then ExecutionStatus.partFill else ExecutionStatus.failed },
      orders)

/-- The aggregation step of `PairedExecutor.execute_parity_trade` after
both legs have settled (executor.py lines 166–192): both legs `FILLED` →
`COMPLETE` with achieved size and entry cost; otherwise `needs_unwind` →
`UNWINDING` (the unwind continuation is `unwind_partial_fill`); otherwise
`FAILED`. -/
def aggregate_execution (r : ExecutionResult) : ExecutionResult :=
  if r.yes_leg.status = LegStatus.filled ∧ r.no_leg.status = LegStatus.filled then
    { r with
        status := ExecutionStatus.complete,
        actual_filled_size := min r.yes_leg.filled_size r.no_leg.filled_size,
        entry_cost :=
          r.yes_leg.price * r.yes_leg.filled_size + r.no_leg.price * r.no_leg.filled_size }
  else if r.needs_unwind then { r with status := ExecutionStatus.unwinding }
  else { r with status := ExecutionStatus.failed, error := some "Both legs failed to execute" }

/-- The token id of the over-filled leg (the side `_unwind_partial`
sells). -/
def overfilled_token (r : ExecutionResult) : String :=
  if r.no_leg.filled_size < r.yes_leg.filled_size then r.yes_leg.token_id
  else r.no_leg.token_id

/-! ## Risk manager (`src/risk/manager.py`) -/

structure RiskConfig where
  max_daily_loss : ℚ
  max_position_value : ℚ
  kill_switch_loss_threshold : ℚ
  max_consecutive_failures : Nat
deriving DecidableEq

inductive RiskViolation where
  | MAX_DAILY_LOSS
  | MAX_POSITION_VALUE
  | MAX_OPEN_PAIRS
  | COOLDOWN_ACTIVE
  | KILL_SWITCH_TRIGGERED
  | CONSECUTIVE_FAILURES
  | STALE_DATA
  | CONNECTION_LOST
deriving DecidableEq

/-- `RiskCheck` (the human-readable `message` string is not modelled). -/
structure RiskCheck where
  passed : Bool
  violation : Option RiskViolation
deriving DecidableEq

def RiskCheck.ok : RiskCheck := { passed := true, violation := none }

def RiskCheck.fail (v : RiskViolation) : RiskCheck := { passed := false, violation := some v }

structure DailyStats where
  date : String
  trades_count : Nat
  total_volume : ℚ
  realized_pnl : ℚ
  max_drawdown : ℚ
  peak_pnl : ℚ
deriving DecidableEq

/-- The view of `PositionManager` that `RiskManager` consumes. -/
structure PositionsView where
  can_open_new_position : Bool
  open_position_count : Nat
  total_exposure : ℚ
deriving DecidableEq

/-- Mutable state of `RiskManager`. -/
structure RMState where
  kill_switch_active : Bool
  kill_switch_reason : Option String
  last_trade_time : ℚ
  consecutive_failures : Nat
  daily_stats : Option DailyStats
  last_health_check : ℚ
  ws_connected : Bool
  last_ws_message : ℚ
deriving DecidableEq

/-- The state of a freshly constructed `RiskManager`. -/
def RMState.init : RMState :=
  { kill_switch_active := false, kill_switch_reason := none, last_trade_time := 0,
    consecutive_failures := 0, daily_stats := none, last_health_check := 0,
    ws_connected := false, last_ws_message := 0 }

/-- `RiskManager._trigger_kill_switch`. -/
def trigger_kill_switch (reason : String) (s : RMState) : RMState :=
  { s with kill_switch_active := true, kill_switch_reason := some reason }

/-- `RiskManager.reset_kill_switch`. -/
def reset_kill_switch (s : RMState) : RMState :=
  { s with kill_switch_active := false, kill_switch_reason := none }

/-- `RiskManager._init_daily_stats`. -/
def init_daily_stats (today : String) : DailyStats :=
  { date := today, trades_count := 0, total_volume := 0, realized_pnl := 0,
    max_drawdown := 0, peak_pnl := 0 }

/-- `RiskManager._get_daily_pnl` (initialises the stats for today as a side
effect when absent). -/
def get_daily_pnl (today : String) (s : RMState) : ℚ × RMState :=
  match s.daily_stats with
  | none => (0, { s with daily_stats := some (init_daily_stats today) })
  | some d => (d.realized_pnl, s)

/-- Today's realised P&L as stored (0 when no stats yet). -/
def daily_pnl_of (s : RMState) : ℚ :=
  match s.daily_stats with
  | none => 0
  | some d => d.realized_pnl

/-- `RiskManager._update_daily_stats`. -/
def update_daily_stats (today : String) (pnl : ℚ) (s : RMState) : RMState :=
  let d0 : DailyStats :=
    match s.daily_stats with
    | some d => if d.date = today then d else init_daily_stats today
    | none => init_daily_stats today
  let d1 := { d0 with trades_count := d0.trades_count + 1, realized_pnl := d0.realized_pnl + pnl }
  let d2 := if d1.peak_pnl < d1.realized_pnl then { d1 with peak_pnl := d1.realized_pnl } else d1
  let d3 :=
    if d2.max_drawdown < d2.peak_pnl - d2.realized_pnl then
      { d2 with max_drawdown := d2.peak_pnl - d2.realized_pnl }
    else d2
  { s with daily_stats := some d3 }

/-- `RiskManager.record_pnl`. -/
def record_pnl (cfg : RiskConfig) (today : String) (pnl : ℚ) (s : RMState) : RMState :=
  let s1 := update_daily_stats today pnl s
  let step := get_daily_pnl today s1
  if step.1 < -cfg.kill_switch_loss_threshold then
    trigger_kill_switch "Loss threshold exceeded" step.2
  else step.2

/-- `RiskManager.record_trade`. -/
def record_trade (cfg : RiskConfig) (now : ℚ) (today : String) (success : Bool) (pnl : ℚ)
    (s : RMState) : RMState :=
  let s1 := { s with last_trade_time := now }
  if success then
    update_daily_stats today pnl { s1 with consecutive_failures := 0 }
  else
    let s2 := { s1 with consecutive_failures := s1.consecutive_failures + 1 }
    if cfg.max_consecutive_failures ≤ s2.consecutive_failures then
      trigger_kill_switch "Consecutive failures" s2
    else s2

/-- `RiskManager._check_cooldown`. -/
def check_cooldown (trading : TradingConfig) (now : ℚ) (s : RMState) : Bool :=
  if s.last_trade_time = 0 then true
  else decide (trading.cooldown_ms ≤ (now - s.last_trade_time) * 1000)

/-- `RiskManager.check_can_trade`: the pre-trade gate, returning the check
result and the possibly-updated state (the daily-loss branch latches the
kill-switch and `_get_daily_pnl` may initialise today's stats). -/
def check_can_trade (cfg : RiskConfig) (trading : TradingConfig) (positions : PositionsView)
    (now : ℚ) (today : String) (s : RMState) : RiskCheck × RMState :=
  if s.kill_switch_active then (RiskCheck.fail RiskViolation.KILL_SWITCH_TRIGGERED, s)
  else if check_cooldown trading now s = false then
    (RiskCheck.fail RiskViolation.COOLDOWN_ACTIVE, s)
  else if positions.can_open_new_position = false then
    (RiskCheck.fail RiskViolation.MAX_OPEN_PAIRS, s)
  else
    let step := get_daily_pnl today s
    if step.1 < -cfg.max_daily_loss then
      (RiskCheck.fail RiskViolation.MAX_DAILY_LOSS,
        trigger_kill_switch "Daily loss limit exceeded" step.2)
    else if cfg.max_position_value ≤ positions.total_exposure then
      (RiskCheck.fail RiskViolation.MAX_POSITION_VALUE, step.2)
    else if cfg.max_consecutive_failures ≤ s.consecutive_failures then
      (RiskCheck.fail RiskViolation.CONSECUTIVE_FAILURES, step.2)
    else (RiskCheck.ok, step.2)

/-- `RiskManager.update_ws_status`. -/
def update_ws_status (connected : Bool) (last_message_time : ℚ) (s : RMState) : RMState :=
  let s1 := { s with ws_connected := connected }
  if 0 < last_message_time then { s1 with last_ws_message := last_message_time } else s1

/-- State effect of `RiskManager.run_health_check` (stamps the check time
and may initialise today's stats via `_get_daily_pnl`). -/
def run_health_check (now : ℚ) (today : String) (s : RMState) : RMState :=
  (get_daily_pnl today { s with last_health_check := now }).2

/-- The `RiskManager` operations that can run between two points in time
(everything that touches the manager's state). -/
inductive RiskOp where
  | recordTrade (now : ℚ) (today : String) (success : Bool) (pnl : ℚ)
  | recordPnl (today : String) (pnl : ℚ)
  | checkCanTrade (positions : PositionsView) (now : ℚ) (today : String)
  | runHealthCheck (now : ℚ) (today : String)
  | updateWsStatus (connected : Bool) (last_message_time : ℚ)
  | resetKillSwitch
deriving DecidableEq

def riskStep (cfg : RiskConfig) (trading : TradingConfig) (s : RMState) : RiskOp → RMState
  | .recordTrade now today success pnl => record_trade cfg now today success pnl s
  | .recordPnl today pnl => record_pnl cfg today pnl s
  | .checkCanTrade positions now today => (check_can_trade cfg trading positions now today s).2
  | .runHealthCheck now today => run_health_check now today s
  | .updateWsStatus c t => update_ws_status c t s
  | .resetKillSwitch => reset_kill_switch s

/-! ## Concrete sample data for witnesses and counterexamples -/

def feeCfg0 : FeeConfig := { taker_fee_rate := 0 }

def tradingCfg0 : TradingConfig :=
  { min_edge := 5/1000, slippage_buffer := 2/1000, max_notional_per_trade := 100,
    max_open_pairs := 5, cooldown_ms := 1000 }

def sampleBook (tok : String) (bids asks : List (ℚ × ℚ)) (t : ℚ) : TokenBook :=
  { token_id := tok, bids := { is_bid := true, levels := bids },
    asks := { is_bid := false, levels := asks }, last_update := t }

/-- A fresh market with a 0.48/0.49 parity opportunity (spec scenario 1). -/
def mkt1 : MarketBook :=
  { condition_id := "m1", yes_token_id := "m1-yes", no_token_id := "m1-no",
    yes_book := sampleBook "m1-yes" [] [(12/25, 100)] 10,
    no_book := sampleBook "m1-no" [] [(49/100, 80)] 10,
    tick_size := 1/100, neg_risk := false }

/-- The signal `check_market` produces for `mkt1` at `now = 20`. -/
def sig1 : ParitySignal :=
  { condition_id := "m1", yes_token_id := "m1-yes", no_token_id := "m1-no",
    yes_ask := 12/25, no_ask := 49/100, combined_cost := 97/100, gross_edge := 3/100,
    net_edge := 7/250, max_size := 80, timestamp := 20 }

/-- A market whose YES book has never received an update. -/
def mkt2 : MarketBook :=
  { condition_id := "m2", yes_token_id := "m2-yes", no_token_id := "m2-no",
    yes_book := sampleBook "m2-yes" [] [(12/25, 100)] 0,
    no_book := sampleBook "m2-no" [] [(49/100, 80)] 10,
    tick_size := 1/100, neg_risk := false }

/-- Both legs timed out with equal partial fills (30 of 50 each). -/
def r2 : ExecutionResult :=
  { execution_id := "e2", condition_id := "m-e2",
    yes_leg := { leg_id := "e2-yes", token_id := "t2-yes", side := "BUY", price := 12/25,
                 size := 50, filled_size := 30, status := LegStatus.partFill },
    no_leg := { leg_id := "e2-no", token_id := "t2-no", side := "BUY", price := 49/100,
                size := 50, filled_size := 30, status := LegStatus.partFill },
    status := ExecutionStatus.inProgress, entry_cost := 0, expected_profit := 0,
    actual_filled_size := 0, error := none }

/-- Spec scenario 3: YES filled 50, NO filled 30 at timeout; the result as
`execute_parity_trade` hands it to `_unwind_partial` (status UNWINDING,
`entry_cost` still the constructor default 0). -/
def r3 : ExecutionResult :=
  { execution_id := "e3", condition_id := "m-e3",
    yes_leg := { leg_id := "e3-yes", token_id := "t3-yes", side := "BUY", price := 12/25,
                 size := 50, filled_size := 50, status := LegStatus.filled },
    no_leg := { leg_id := "e3-no", token_id := "t3-no", side := "BUY", price := 49/100,
                size := 50, filled_size := 30, status := LegStatus.partFill },
    status := ExecutionStatus.unwinding, entry_cost := 0, expected_profit := 0,
    actual_filled_size := 0, error := none }

/-- Venue best bids at unwind time. -/
def bids3 : String → ℚ := fun t => if t = "t3-yes" then 47/100 else 44/100

/-- Lexicographic comparison of strings by character code, used to state
the claimed tie-break rule. -/
def charListLe : List Char → List Char → Bool
  | [], _ => true
  | _ :: _, [] => false
  | a :: as, b :: bs =>
    if a.toNat < b.toNat then true
    else if b.toNat < a.toNat then false
    else charListLe as bs

def strLexLe (a b : String) : Bool := charListLe a.data b.data

/-- A market with the same 0.48/0.49 books as `mkt1` under another id. -/
def tieMkt (cid ytok ntok : String) : MarketBook :=
  { condition_id := cid, yes_token_id := ytok, no_token_id := ntok,
    yes_book := sampleBook ytok [] [(12/25, 100)] 10,
    no_book := sampleBook ntok [] [(49/100, 80)] 10,
    tick_size := 1/100, neg_risk := false }

def mktB : MarketBook := tieMkt "b" "b-yes" "b-no"

def mktA : MarketBook := tieMkt "a" "a-yes" "a-no"

/-- The signals `check_market` produces for `mktB` and `mktA` at
`now = 20` (equal net edge 0.028). -/
def sigB : ParitySignal :=
  { condition_id := "b", yes_token_id := "b-yes", no_token_id := "b-no",
    yes_ask := 12/25, no_ask := 49/100, combined_cost := 97/100, gross_edge := 3/100,
    net_edge := 7/250, max_size := 80, timestamp := 20 }

def sigA : ParitySignal :=
  { condition_id := "a", yes_token_id := "a-yes", no_token_id := "a-no",
    yes_ask := 12/25, no_ask := 49/100, combined_cost := 97/100, gross_edge := 3/100,
    net_edge := 7/250, max_size := 80, timestamp := 20 }

def riskCfg0 : RiskConfig :=
  { max_daily_loss := 500, max_position_value := 1000, kill_switch_loss_threshold := 200,
    max_consecutive_failures := 3 }

def posView0 : PositionsView :=
  { can_open_new_position := true, open_position_count := 0, total_exposure := 0 }

/-- Risk state with today's realised P&L exactly at −max_daily_loss. -/
def rmAtLimit : RMState :=
  { RMState.init with
      daily_stats := some { init_daily_stats "2026-10-12" with realized_pnl := -500 } }

/-- Risk state with today's realised P&L strictly below −max_daily_loss. -/
def rmBelow : RMState :=
  { RMState.init with
      daily_stats := some { init_daily_stats "2026-10-12" with realized_pnl := -501 } }

/-- The state after a −250 P&L record from a fresh manager (kill-switch
latched, threshold 200). -/
def rmKill : RMState := record_pnl riskCfg0 "2026-10-12" (-250) RMState.init

/-- A batch of post-latch operations, none of which is the manual reset. -/
def ops6 : List RiskOp :=
  [RiskOp.recordTrade 6 "2026-10-12" false 0, RiskOp.recordPnl "2026-10-12" (-1),
    RiskOp.checkCanTrade posView0 7 "2026-10-12", RiskOp.runHealthCheck 8 "2026-10-12",
    RiskOp.updateWsStatus true 9]

/-- A market whose combined best bid has converged (0.5 + 0.499 ≥ 1 − 0.001). -/
def mkt3 : MarketBook :=
  { condition_id := "m3", yes_token_id := "m3-yes", no_token_id := "m3-no",
    yes_book := sampleBook "m3-yes" [(1/2, 10)] [(12/25, 100)] 10,
    no_book := sampleBook "m3-no" [(499/1000, 10)] [(49/100, 80)] 10,
    tick_size := 1/100, neg_risk := false }

/-! ## Theorems: orderbook side invariants (C9) -/

theorem keyLt_trans {isBid : Bool} {a b c : ℚ} (h1 : keyLt isBid a b) (h2 : keyLt isBid b c) :
    keyLt isBid a c := by
  cases isBid
  · exact lt_trans h1 h2
  · exact lt_trans h2 h1

theorem keyLt_total {isBid : Bool} {a b : ℚ} (hne : a ≠ b) (h : ¬ keyLt isBid a b) :
    keyLt isBid b a := by
  cases isBid
  · exact lt_of_le_of_ne (not_lt.mp h) (Ne.symm hne)
  · exact lt_of_le_of_ne (not_lt.mp h) hne

theorem mem_insertLevel {x : ℚ × ℚ} {isBid : Bool} {p s : ℚ} {l : List (ℚ × ℚ)}
    (h : x ∈ insertLevel isBid p s l) : x = (p, s) ∨ x ∈ l := by
  induction l with
  | nil => simpa [insertLevel] using h
  | cons y rest ih =>
    simp only [insertLevel] at h
    split_ifs at h with h1 h2
    · rcases List.mem_cons.mp h with h3 | h3
      · exact Or.inl h3
      · exact Or.inr (List.mem_cons_of_mem _ h3)
    · rcases List.mem_cons.mp h with h3 | h3
      · exact Or.inl h3
      · exact Or.inr h3
    · rcases List.mem_cons.mp h with h3 | h3
      · exact Or.inr (by simp [h3])
      · rcases ih h3 with h4 | h4
        · exact Or.inl h4
        · exact Or.inr (List.mem_cons_of_mem _ h4)

theorem pairwise_insertLevel {isBid : Bool} {p s : ℚ} {l : List (ℚ × ℚ)}
    (h : l.Pairwise (fun a b => keyLt isBid a.1 b.1)) :
    (insertLevel isBid p s l).Pairwise (fun a b => keyLt isBid a.1 b.1) := by
  induction l with
  | nil => simp [insertLevel]
  | cons y rest ih =>
    rcases List.pairwise_cons.mp h with ⟨hy, hrest⟩
    simp only [insertLevel]
    split_ifs with h1 h2
    · refine List.pairwise_cons.mpr ⟨?_, hrest⟩
      intro b hb
      rw [show (p, s).1 = y.1 from h1]
      exact hy b hb
    · refine List.pairwise_cons.mpr ⟨?_, h⟩
      intro b hb
      rcases List.mem_cons.mp hb with hb1 | hb1
      · rw [hb1]; exact h2
      · exact keyLt_trans h2 (hy b hb1)
    · refine List.pairwise_cons.mpr ⟨?_, ih hrest⟩
      intro b hb
      rcases mem_insertLevel hb with hb1 | hb1
      · rw [hb1]; exact keyLt_total (fun hpq => h1 hpq) h2
      · exact hy b hb1

theorem removeLevel_sublist (p : ℚ) (l : List (ℚ × ℚ)) : (removeLevel p l).Sublist l := by
  induction l with
  | nil => simp [removeLevel]
  | cons y rest ih =>
    simp only [removeLevel]
    split_ifs
    · exact ih.cons y
    · exact ih.cons₂ y

theorem mem_removeLevel_ne {x : ℚ × ℚ} {p : ℚ} {l : List (ℚ × ℚ)}
    (h : x ∈ removeLevel p l) : x.1 ≠ p := by
  induction l with
  | nil => simp [removeLevel] at h
  | cons y rest ih =>
    simp only [removeLevel] at h
    split_ifs at h with h1
    · exact ih h
    · rcases List.mem_cons.mp h with h2 | h2
      · rw [h2]; exact h1
      · exact ih h2

theorem levelsInv_insert {isBid : Bool} {p s : ℚ} {l : List (ℚ × ℚ)}
    (h : LevelsInv isBid l) (hs : 0 < s) : LevelsInv isBid (insertLevel isBid p s l) := by
  constructor
  · intro x hx
    rcases mem_insertLevel hx with h1 | h1
    · rw [h1]; exact hs
    · exact h.1 x h1
  · exact pairwise_insertLevel h.2

theorem levelsInv_remove {isBid : Bool} {p : ℚ} {l : List (ℚ × ℚ)}
    (h : LevelsInv isBid l) : LevelsInv isBid (removeLevel p l) :=
  ⟨fun x hx => h.1 x ((removeLevel_sublist p l).subset hx),
    h.2.sublist (removeLevel_sublist p l)⟩

theorem levelsInv_nil (isBid : Bool) : LevelsInv isBid [] :=
  ⟨by simp, by simp⟩

theorem levelsInv_update {side : BookSide} (h : LevelsInv side.is_bid side.levels)
    (p s : ℚ) : LevelsInv (side.update p s).is_bid (side.update p s).levels := by
  unfold BookSide.update
  split_ifs with h1
  · exact levelsInv_remove h
  · exact levelsInv_insert h (not_le.mp h1)

theorem levelsInv_snapshot_fold {isBid : Bool} (input : List (ℚ × ℚ)) (acc : List (ℚ × ℚ))
    (h : LevelsInv isBid acc) :
    LevelsInv isBid
      (input.foldl (fun a x => if 0 < x.2 then insertLevel isBid x.1 x.2 a else a) acc) := by
  induction input generalizing acc with
  | nil => simpa using h
  | cons y rest ih =>
    simp only [List.foldl_cons]
    apply ih
    split_ifs with h1
    · exact levelsInv_insert h h1
    · exact h

theorem levelsInv_applyOp {side : BookSide} (h : LevelsInv side.is_bid side.levels)
    (op : BookOp) : LevelsInv (applyBookOp side op).is_bid (applyBookOp side op).levels := by
  cases op with
  | update p s => exact levelsInv_update h p s
  | snapshot ls =>
    show LevelsInv (side.set_snapshot ls).is_bid (side.set_snapshot ls).levels
    unfold BookSide.set_snapshot
    exact levelsInv_snapshot_fold ls [] (levelsInv_nil side.is_bid)

theorem applyBookOp_is_bid (side : BookSide) (op : BookOp) :
    (applyBookOp side op).is_bid = side.is_bid := by
  cases op with
  | update p s =>
    show (side.update p s).is_bid = side.is_bid
    unfold BookSide.update
    split_ifs <;> rfl
  | snapshot ls => rfl

theorem levelsInv_applyOps (side : BookSide) (h : LevelsInv side.is_bid side.levels)
    (ops : List BookOp) :
    LevelsInv (applyBookOps side ops).is_bid (applyBookOps side ops).levels := by
  induction ops generalizing side with
  | nil => simpa [applyBookOps] using h
  | cons op rest ih =>
    simp only [applyBookOps, List.foldl_cons]
    exact ih _ (levelsInv_applyOp h op)

theorem applyBookOps_is_bid (side : BookSide) (ops : List BookOp) :
    (applyBookOps side ops).is_bid = side.is_bid := by
  induction ops generalizing side with
  | nil => rfl
  | cons op rest ih =>
    simp only [applyBookOps, List.foldl_cons]
    exact (ih _).trans (applyBookOp_is_bid side op)

/-- Claim C9: starting from a fresh side, after any sequence of snapshot
and delta applications every retained level has size strictly greater
than 0 (a delta with size ≤ 0 removes the level, and snapshot loading
drops non-positive levels), and the side's best price is the first key in
the side's order — it is a retained price and every other retained price
sorts strictly after it (lowest ask / highest bid) — or `none` exactly
when the side is empty. -/
theorem C9_book_side_invariants (isBid : Bool) (ops : List BookOp) :
    (∀ x ∈ (applyBookOps ⟨isBid, []⟩ ops).levels, 0 < x.2) ∧
    (∀ (side : BookSide) (p s : ℚ), s ≤ 0 → ∀ x ∈ (side.update p s).levels, x.1 ≠ p) ∧
    ((applyBookOps ⟨isBid, []⟩ ops).best_price = none ↔
      (applyBookOps ⟨isBid, []⟩ ops).levels = []) ∧
    (∀ b, (applyBookOps ⟨isBid, []⟩ ops).best_price = some b →
      (∃ sz, (b, sz) ∈ (applyBookOps ⟨isBid, []⟩ ops).levels) ∧
      ∀ x ∈ (applyBookOps ⟨isBid, []⟩ ops).levels, x.1 = b ∨ keyLt isBid b x.1) := by
  have hinv := levelsInv_applyOps ⟨isBid, []⟩ (levelsInv_nil isBid) ops
  have hbid : (applyBookOps ⟨isBid, []⟩ ops).is_bid = isBid :=
    (applyBookOps_is_bid ⟨isBid, []⟩ ops).trans rfl
  rw [hbid] at hinv
  refine ⟨hinv.1, ?_, ?_, ?_⟩
  · intro side p s hs x hx
    unfold BookSide.update at hx
    rw [if_pos hs] at hx
    exact mem_removeLevel_ne hx
  · unfold BookSide.best_price
    cases (applyBookOps ⟨isBid, []⟩ ops).levels <;> simp
  · intro b hb
    unfold BookSide.best_price at hb
    rcases hlev : (applyBookOps ⟨isBid, []⟩ ops).levels with _ | ⟨hd, tl⟩
    · rw [hlev] at hb; simp at hb
    · rw [hlev] at hb
      have hb1 : hd.1 = b := by simpa using hb
      constructor
      · exact ⟨hd.2, by rw [← hb1]; simp⟩
      · intro x hx
        rcases List.mem_cons.mp hx with h1 | h1
        · left; rw [h1]; exact hb1
        · right
          rw [← hb1]
          have hpw := hinv.2
          rw [hlev] at hpw
          exact (List.pairwise_cons.mp hpw).1 x h1

/-- Concrete instantiation of C9's statement (an ask side receiving a
snapshot with a dropped non-positive level, an insert delta and a remove
delta). -/
theorem C9_book_side_invariants_witness :
    (∀ x ∈ (applyBookOps ⟨false, []⟩
        [BookOp.snapshot [(1/2, 5), (3/4, 0)], BookOp.update (1/4) 2,
          BookOp.update (1/2) 0]).levels, 0 < x.2) ∧
    (∀ (side : BookSide) (p s : ℚ), s ≤ 0 → ∀ x ∈ (side.update p s).levels, x.1 ≠ p) ∧
    ((applyBookOps ⟨false, []⟩
        [BookOp.snapshot [(1/2, 5), (3/4, 0)], BookOp.update (1/4) 2,
          BookOp.update (1/2) 0]).best_price = none ↔
      (applyBookOps ⟨false, []⟩
        [BookOp.snapshot [(1/2, 5), (3/4, 0)], BookOp.update (1/4) 2,
          BookOp.update (1/2) 0]).levels = []) ∧
    (∀ b, (applyBookOps ⟨false, []⟩
        [BookOp.snapshot [(1/2, 5), (3/4, 0)], BookOp.update (1/4) 2,
          BookOp.update (1/2) 0]).best_price = some b →
      (∃ sz, (b, sz) ∈ (applyBookOps ⟨false, []⟩
        [BookOp.snapshot [(1/2, 5), (3/4, 0)], BookOp.update (1/4) 2,
          BookOp.update (1/2) 0]).levels) ∧
      ∀ x ∈ (applyBookOps ⟨false, []⟩
        [BookOp.snapshot [(1/2, 5), (3/4, 0)], BookOp.update (1/4) 2,
          BookOp.update (1/2) 0]).levels, x.1 = b ∨ keyLt false b x.1) :=
  C9_book_side_invariants false
    [BookOp.snapshot [(1/2, 5), (3/4, 0)], BookOp.update (1/4) 2, BookOp.update (1/2) 0]

/-! ## Theorems: staleness gating (C10) and sizing cap (C4) -/

/-- Claim C10: a token book that has never received any update
(`last_update` still 0) reports an infinite age (`none` in this
embedding), any market one of whose token books has never been updated is
stale, and the per-market check returns no signal for it — so no signal is
emitted for a market before both token books have been updated. -/
theorem C10_no_signal_before_first_update (fees : FeeConfig) (trading : TradingConfig)
    (now : ℚ) (m : MarketBook)
    (h : m.yes_book.last_update = 0 ∨ m.no_book.last_update = 0) :
    (m.yes_book.last_update = 0 → m.yes_book.age_seconds now = none) ∧
    (m.no_book.last_update = 0 → m.no_book.age_seconds now = none) ∧
    m.is_stale now = true ∧
    check_market fees trading now m = none := by
  have hage : ∀ b : TokenBook, b.last_update = 0 → b.age_seconds now = none := by
    intro b hb
    unfold TokenBook.age_seconds
    rw [if_pos hb]
  have hstale : m.is_stale now = true := by
    unfold MarketBook.is_stale
    rcases h with h | h
    · rw [hage _ h]; rfl
    · rw [hage _ h]; simp [ageGt]
  refine ⟨hage _, hage _, hstale, ?_⟩
  unfold check_market
  rw [hstale]
  rfl

/-- Concrete instantiation of C10 on a market whose YES book was never
updated. -/
theorem C10_no_signal_before_first_update_witness :
    (mkt2.yes_book.last_update = 0 → mkt2.yes_book.age_seconds 20 = none) ∧
    (mkt2.no_book.last_update = 0 → mkt2.no_book.age_seconds 20 = none) ∧
    mkt2.is_stale 20 = true ∧
    check_market feeCfg0 tradingCfg0 20 mkt2 = none :=
  C10_no_signal_before_first_update feeCfg0 tradingCfg0 20 mkt2
    (Or.inl (by norm_num [mkt2, sampleBook]))

/-- Claim C4: every signal produced by the per-market check satisfies
`max_size × combined_cost ≤ max_notional_per_trade` and
`max_size ≤ min(yes_ask_size, no_ask_size)`, the size being
`min(top-of-book liquidity, max_notional_per_trade / combined_cost)`.
(The combined cost of a signal is positive for any real book, whose
prices are positive.) -/
theorem C4_sizing_cap (fees : FeeConfig) (trading : TradingConfig) (now : ℚ)
    (m : MarketBook) (s : ParitySignal)
    (h : check_market fees trading now m = some s)
    (hcc : 0 < s.combined_cost) :
    s.max_size * s.combined_cost ≤ trading.max_notional_per_trade ∧
    (∃ ys ns, m.yes_book.asks.best_size = some ys ∧ m.no_book.asks.best_size = some ns ∧
      s.max_size ≤ min ys ns ∧
      s.max_size = min (min ys ns) (trading.max_notional_per_trade / s.combined_cost)) := by
  unfold check_market at h
  split at h
  · exact absurd h (by simp)
  · split at h
    case _ ya na hya hna =>
      simp only at h
      split_ifs at h with hge
      · split at h
        case _ heq => exact absurd h (by simp)
        case _ sz heq =>
          split_ifs at h with hsz hpos
          all_goals (
            rw [Option.some.injEq] at h
            subst h
            simp only at hcc ⊢
            unfold MarketBook.get_executable_size at heq
            split at heq
            case _ ys ns hys hns =>
              rw [Option.some.injEq] at heq
              subst heq
              refine ⟨?_, ys, ns, hys, hns, min_le_left _ _, rfl⟩
              have h1 : min (min ys ns) (trading.max_notional_per_trade / (ya + na)) ≤
                  trading.max_notional_per_trade / (ya + na) := min_le_right _ _
              exact (le_div_iff₀ hcc).mp h1
            case _ => exact absurd heq (by simp))
    case _ hmiss =>
      exact absurd h (by simp)

/-- Concrete instantiation of C4 on `mkt1` (spec scenario 1: size 80,
notional 77.6 ≤ 100). -/
theorem C4_sizing_cap_witness :
    sig1.max_size * sig1.combined_cost ≤ tradingCfg0.max_notional_per_trade ∧
    (∃ ys ns, mkt1.yes_book.asks.best_size = some ys ∧
      mkt1.no_book.asks.best_size = some ns ∧
      sig1.max_size ≤ min ys ns ∧
      sig1.max_size = min (min ys ns)
        (tradingCfg0.max_notional_per_trade / sig1.combined_cost)) :=
  C4_sizing_cap feeCfg0 tradingCfg0 20 mkt1 sig1
    (by norm_num [check_market, MarketBook.is_stale, ageGt, TokenBook.age_seconds,
      MarketBook.yes_best_ask, MarketBook.no_best_ask, TokenBook.best_ask,
      BookSide.best_price, BookSide.best_size, MarketBook.get_executable_size,
      calculate_fees, mkt1, sampleBook, feeCfg0, tradingCfg0, sig1])
    (by norm_num [sig1])

/-! ## Theorems: dual-leg executor (C1, C2, C3) -/

/-- Claim C1: when the two legs end with unequal (non-negative, at least
one positive) filled sizes and the venue quotes a positive best bid for
the over-filled token, the unwind submits exactly one SELL order on the
over-filled side, at the current best bid, for exactly
`|yes_filled − no_filled|`; after this successful unwind the achieved
matched size is `min(yes_filled, no_filled)` and the status is PARTIAL
exactly when that minimum is positive, FAILED exactly when it is zero. -/
theorem C1_unwind_exact_difference (bids : String → ℚ) (r : ExecutionResult)
    (hne : r.yes_leg.filled_size ≠ r.no_leg.filled_size)
    (_hpos : 0 < r.yes_leg.filled_size ∨ 0 < r.no_leg.filled_size)
    (hy : 0 ≤ r.yes_leg.filled_size) (hn : 0 ≤ r.no_leg.filled_size)
    (hbid : 0 < bids (overfilled_token r)) :
    (unwind_partial_fill bids r).2 =
      [{ token_id := overfilled_token r, side := "SELL",
         price := bids (overfilled_token r),
         size := |r.yes_leg.filled_size - r.no_leg.filled_size| }] ∧
    (unwind_partial_fill bids r).1.actual_filled_size =
      min r.yes_leg.filled_size r.no_leg.filled_size ∧
    ((unwind_partial_fill bids r).1.status = ExecutionStatus.partFill ↔
      0 < min r.yes_leg.filled_size r.no_leg.filled_size) ∧
    ((unwind_partial_fill bids r).1.status = ExecutionStatus.failed ↔
      min r.yes_leg.filled_size r.no_leg.filled_size = 0) := by
  rcases lt_or_gt_of_ne hne with hlt | hgt
  · -- YES under-filled: the NO side is over-filled and gets sold
    have h1 : ¬ (r.no_leg.filled_size < r.yes_leg.filled_size) := not_lt.mpr (le_of_lt hlt)
    have htok : overfilled_token r = r.no_leg.token_id := by
      unfold overfilled_token; rw [if_neg h1]
    have hbid1 : ¬ (bids r.no_leg.token_id ≤ 0) := not_le.mpr (htok ▸ hbid)
    have habs : |r.yes_leg.filled_size - r.no_leg.filled_size| =
        r.no_leg.filled_size - r.yes_leg.filled_size := by
      rw [abs_sub_comm]
      exact abs_of_pos (sub_pos.mpr hlt)
    rw [htok, habs]
    have hmin : min r.yes_leg.filled_size r.no_leg.filled_size = r.yes_leg.filled_size :=
      min_eq_left (le_of_lt hlt)
    simp only [unwind_partial_fill, sell_position, if_neg h1, if_pos hlt, if_neg hbid1,
      Option.map_some]
    refine ⟨rfl, rfl, ?_, ?_⟩
    · by_cases h0 : 0 < min r.yes_leg.filled_size r.no_leg.filled_size
      · rw [if_pos h0]; simp [h0]
      · rw [if_neg h0]; simp [h0]
    · by_cases h0 : 0 < min r.yes_leg.filled_size r.no_leg.filled_size
      · rw [if_pos h0]; simp [h0.ne']
      · rw [if_neg h0]
        simp [le_antisymm (not_lt.mp h0) (le_min hy hn)]
  · -- NO under-filled: the YES side is over-filled and gets sold
    have h1 : r.no_leg.filled_size < r.yes_leg.filled_size := hgt
    have htok : overfilled_token r = r.yes_leg.token_id := by
      unfold overfilled_token; rw [if_pos h1]
    have hbid1 : ¬ (bids r.yes_leg.token_id ≤ 0) := not_le.mpr (htok ▸ hbid)
    have habs : |r.yes_leg.filled_size - r.no_leg.filled_size| =
        r.yes_leg.filled_size - r.no_leg.filled_size :=
      abs_of_pos (sub_pos.mpr h1)
    rw [htok, habs]
    simp only [unwind_partial_fill, sell_position, if_pos h1, if_neg hbid1, Option.map_some]
    refine ⟨rfl, rfl, ?_, ?_⟩
    · by_cases h0 : 0 < min r.yes_leg.filled_size r.no_leg.filled_size
      · rw [if_pos h0]; simp [h0]
      · rw [if_neg h0]; simp [h0]
    · by_cases h0 : 0 < min r.yes_leg.filled_size r.no_leg.filled_size
      · rw [if_pos h0]; simp [h0.ne']
      · rw [if_neg h0]
        simp [le_antisymm (not_lt.mp h0) (le_min hy hn)]

/-- Concrete instantiation of C1 on spec scenario 3 (sell 20 YES at the
0.47 bid; achieved size 30, PARTIAL). -/
theorem C1_unwind_exact_difference_witness :
    (unwind_partial_fill bids3 r3).2 =
      [{ token_id := overfilled_token r3, side := "SELL",
         price := bids3 (overfilled_token r3),
         size := |r3.yes_leg.filled_size - r3.no_leg.filled_size| }] ∧
    (unwind_partial_fill bids3 r3).1.actual_filled_size =
      min r3.yes_leg.filled_size r3.no_leg.filled_size ∧
    ((unwind_partial_fill bids3 r3).1.status = ExecutionStatus.partFill ↔
      0 < min r3.yes_leg.filled_size r3.no_leg.filled_size) ∧
    ((unwind_partial_fill bids3 r3).1.status = ExecutionStatus.failed ↔
      min r3.yes_leg.filled_size r3.no_leg.filled_size = 0) :=
  C1_unwind_exact_difference bids3 r3 (by norm_num [r3]) (by norm_num [r3])
    (by norm_num [r3]) (by norm_num [r3])
    (by norm_num [r3, bids3, overfilled_token])

/-- Counterexample to C2 as stated: both legs time out with equal partial
fills (30 of 50 each); the aggregation marks the execution FAILED although
both filled sizes are positive, contradicting "FAILED exactly when both
legs have zero filled size". -/
theorem C2_status_counterexample :
    (aggregate_execution r2).status = ExecutionStatus.failed ∧
    0 < r2.yes_leg.filled_size ∧ 0 < r2.no_leg.filled_size := by
  refine ⟨?_, by norm_num [r2], by norm_num [r2]⟩
  unfold aggregate_execution
  rw [if_neg (by simp only [r2]; decide), if_neg (by norm_num [ExecutionResult.needs_unwind, r2])]

/-- Claim C2 (amended): the aggregate status is COMPLETE exactly when both
legs have status FILLED (and then the achieved size is the minimum of the
filled sizes and the entry cost is Σ price × filled); UNWINDING exactly
when not both legs are FILLED and the filled sizes differ (at least one
being positive); FAILED exactly when not both legs are FILLED and the
filled sizes are equal — which includes equal positive partial fills, not
only the both-zero case. -/
theorem C2_status_amended (r : ExecutionResult)
    (hy : 0 ≤ r.yes_leg.filled_size) (hn : 0 ≤ r.no_leg.filled_size) :
    ((aggregate_execution r).status = ExecutionStatus.complete ↔
      (r.yes_leg.status = LegStatus.filled ∧ r.no_leg.status = LegStatus.filled)) ∧
    ((aggregate_execution r).status = ExecutionStatus.complete →
      (aggregate_execution r).actual_filled_size =
        min r.yes_leg.filled_size r.no_leg.filled_size ∧
      (aggregate_execution r).entry_cost =
        r.yes_leg.price * r.yes_leg.filled_size + r.no_leg.price * r.no_leg.filled_size) ∧
    ((aggregate_execution r).status = ExecutionStatus.unwinding ↔
      (¬ (r.yes_leg.status = LegStatus.filled ∧ r.no_leg.status = LegStatus.filled) ∧
        r.yes_leg.filled_size ≠ r.no_leg.filled_size ∧
        (0 < r.yes_leg.filled_size ∨ 0 < r.no_leg.filled_size))) ∧
    ((aggregate_execution r).status = ExecutionStatus.failed ↔
      (¬ (r.yes_leg.status = LegStatus.filled ∧ r.no_leg.status = LegStatus.filled) ∧
        r.yes_leg.filled_size = r.no_leg.filled_size)) := by
  have hposne : r.yes_leg.filled_size ≠ r.no_leg.filled_size →
      (0 < r.yes_leg.filled_size ∨ 0 < r.no_leg.filled_size) := by
    intro hne
    by_contra hc
    push_neg at hc
    exact hne ((le_antisymm hc.1 hy).trans (le_antisymm hc.2 hn).symm)
  by_cases hfill : r.yes_leg.status = LegStatus.filled ∧ r.no_leg.status = LegStatus.filled
  · unfold aggregate_execution
    rw [if_pos hfill]
    simp [hfill]
  · unfold aggregate_execution
    rw [if_neg hfill]
    by_cases hne : r.yes_leg.filled_size = r.no_leg.filled_size
    · have hnu : r.needs_unwind = false := by
        unfold ExecutionResult.needs_unwind
        simp [hne]
      rw [hnu]
      simp [hfill, hne]
    · have hnu : r.needs_unwind = true := by
        unfold ExecutionResult.needs_unwind
        rcases hposne hne with hp | hp <;> simp [hne, hp]
      rw [hnu]
      simp [hfill, hne, hposne hne]

/-- Concrete instantiation of C2 (amended) on the equal-partial-fill
execution `r2`. -/
theorem C2_status_amended_witness :
    ((aggregate_execution r2).status = ExecutionStatus.complete ↔
      (r2.yes_leg.status = LegStatus.filled ∧ r2.no_leg.status = LegStatus.filled)) ∧
    ((aggregate_execution r2).status = ExecutionStatus.complete →
      (aggregate_execution r2).actual_filled_size =
        min r2.yes_leg.filled_size r2.no_leg.filled_size ∧
      (aggregate_execution r2).entry_cost =
        r2.yes_leg.price * r2.yes_leg.filled_size +
          r2.no_leg.price * r2.no_leg.filled_size) ∧
    ((aggregate_execution r2).status = ExecutionStatus.unwinding ↔
      (¬ (r2.yes_leg.status = LegStatus.filled ∧ r2.no_leg.status = LegStatus.filled) ∧
        r2.yes_leg.filled_size ≠ r2.no_leg.filled_size ∧
        (0 < r2.yes_leg.filled_size ∨ 0 < r2.no_leg.filled_size))) ∧
    ((aggregate_execution r2).status = ExecutionStatus.failed ↔
      (¬ (r2.yes_leg.status = LegStatus.filled ∧ r2.no_leg.status = LegStatus.filled) ∧
        r2.yes_leg.filled_size = r2.no_leg.filled_size)) :=
  C2_status_amended r2 (by norm_num [r2]) (by norm_num [r2])

/-- Claim C3 is violated by the code: `_unwind_partial` never writes
`entry_cost`, so a PARTIAL-after-unwind result keeps the constructor
default 0 instead of Σ price × filled over both legs (the spec's
`ExecutionResult` entry cost).  General part: the unwind step preserves
`entry_cost` unchanged.  Concrete part: on spec scenario 3 (YES fills 50
at 0.48, NO fills 30 at 0.49) the result is PARTIAL with `entry_cost = 0`
although Σ price × filled = 38.7. -/
theorem C3_partial_entry_cost_left_zero :
    (∀ (bids : String → ℚ) (r : ExecutionResult),
      (unwind_partial_fill bids r).1.entry_cost = r.entry_cost) ∧
    (unwind_partial_fill bids3 r3).1.status = ExecutionStatus.partFill ∧
    (unwind_partial_fill bids3 r3).1.entry_cost = 0 ∧
    r3.yes_leg.price * r3.yes_leg.filled_size + r3.no_leg.price * r3.no_leg.filled_size
      = 387/10 := by
  refine ⟨?_, ?_, ?_, ?_⟩
  · intro bids r
    simp only [unwind_partial_fill]
    split <;> rfl
  · norm_num [unwind_partial_fill, sell_position, r3, bids3]
  · norm_num [unwind_partial_fill, sell_position, r3, bids3]
  · norm_num [r3]

/-! ## Theorems: scan ranking (C5) -/

theorem mem_insertByEdge {a x : ParitySignal} {l : List ParitySignal} :
    a ∈ insertByEdge x l ↔ a = x ∨ a ∈ l := by
  induction l with
  | nil => simp [insertByEdge]
  | cons y ys ih =>
    simp only [insertByEdge]
    split_ifs <;> (simp only [List.mem_cons, ih]; try tauto)

theorem mem_sortByEdge {a : ParitySignal} {l : List ParitySignal} :
    a ∈ sortByEdge l ↔ a ∈ l := by
  induction l with
  | nil => simp [sortByEdge]
  | cons x xs ih =>
    simp only [sortByEdge, mem_insertByEdge, ih, List.mem_cons]

theorem sorted_insertByEdge {x : ParitySignal} {l : List ParitySignal}
    (h : l.Pairwise (fun a b => b.net_edge ≤ a.net_edge)) :
    (insertByEdge x l).Pairwise (fun a b => b.net_edge ≤ a.net_edge) := by
  induction l with
  | nil => simp [insertByEdge]
  | cons y ys ih =>
    rcases List.pairwise_cons.mp h with ⟨hy, hys⟩
    simp only [insertByEdge]
    split_ifs with h1
    · refine List.pairwise_cons.mpr ⟨?_, ih hys⟩
      intro b hb
      rcases mem_insertByEdge.mp hb with hb1 | hb1
      · rw [hb1]; exact le_of_lt h1
      · exact hy b hb1
    · refine List.pairwise_cons.mpr ⟨?_, h⟩
      intro b hb
      rcases List.mem_cons.mp hb with hb1 | hb1
      · rw [hb1]; exact not_lt.mp h1
      · exact le_trans (hy b hb1) (not_lt.mp h1)

theorem sorted_sortByEdge (l : List ParitySignal) :
    (sortByEdge l).Pairwise (fun a b => b.net_edge ≤ a.net_edge) := by
  induction l with
  | nil => simp [sortByEdge]
  | cons x xs ih => exact sorted_insertByEdge ih

theorem filter_insertByEdge (k : ℚ) (x : ParitySignal) (l : List ParitySignal) :
    (insertByEdge x l).filter (fun s => decide (s.net_edge = k)) =
      (x :: l).filter (fun s => decide (s.net_edge = k)) := by
  induction l with
  | nil => rfl
  | cons y ys ih =>
    simp only [insertByEdge]
    split_ifs with h1
    · by_cases hx : x.net_edge = k <;> by_cases hy : y.net_edge = k
      · exact absurd h1 (by rw [hx, hy]; exact lt_irrefl k)
      all_goals simp [List.filter_cons, ih, hx, hy]
    · rfl

theorem filter_sortByEdge (k : ℚ) (l : List ParitySignal) :
    (sortByEdge l).filter (fun s => decide (s.net_edge = k)) =
      l.filter (fun s => decide (s.net_edge = k)) := by
  induction l with
  | nil => rfl
  | cons x xs ih =>
    rw [show sortByEdge (x :: xs) = insertByEdge x (sortByEdge xs) from rfl,
      filter_insertByEdge]
    simp only [List.filter_cons, ih]

/-- Claim C5 (amended): the scan returns exactly the produced signals with
`net_edge ≥ min_edge`, sorted by descending `net_edge`; ties between equal
`net_edge` values keep the market-iteration order (Python's sort is
stable), not lexicographic `condition_id` order; `best()` returns the head
of that list or nothing when it is empty. -/
theorem C5_scan_ranking_amended (fees : FeeConfig) (trading : TradingConfig) (now : ℚ)
    (markets : List MarketBook) :
    (∀ s, s ∈ scan_all_markets fees trading now markets ↔
      ((∃ m ∈ markets, check_market fees trading now m = some s) ∧
        trading.min_edge ≤ s.net_edge)) ∧
    (scan_all_markets fees trading now markets).Pairwise
      (fun a b => b.net_edge ≤ a.net_edge) ∧
    (∀ k, (scan_all_markets fees trading now markets).filter
        (fun s => decide (s.net_edge = k)) =
      ((markets.filterMap (check_market fees trading now)).filter
        (fun s => decide (trading.min_edge ≤ s.net_edge))).filter
        (fun s => decide (s.net_edge = k))) ∧
    get_best_opportunity fees trading now markets =
      (scan_all_markets fees trading now markets).head? := by
  refine ⟨?_, sorted_sortByEdge _, fun k => filter_sortByEdge k _, rfl⟩
  intro s
  unfold scan_all_markets
  rw [mem_sortByEdge, List.mem_filter, List.mem_filterMap]
  simp only [decide_eq_true_eq]

/-- Concrete instantiation of C5 (amended) on the two equal-edge markets
`mktB`, `mktA`. -/
theorem C5_scan_ranking_amended_witness :
    (∀ s, s ∈ scan_all_markets feeCfg0 tradingCfg0 20 [mktB, mktA] ↔
      ((∃ m ∈ [mktB, mktA], check_market feeCfg0 tradingCfg0 20 m = some s) ∧
        tradingCfg0.min_edge ≤ s.net_edge)) ∧
    (scan_all_markets feeCfg0 tradingCfg0 20 [mktB, mktA]).Pairwise
      (fun a b => b.net_edge ≤ a.net_edge) ∧
    (∀ k, (scan_all_markets feeCfg0 tradingCfg0 20 [mktB, mktA]).filter
        (fun s => decide (s.net_edge = k)) =
      (([mktB, mktA].filterMap (check_market feeCfg0 tradingCfg0 20)).filter
        (fun s => decide (tradingCfg0.min_edge ≤ s.net_edge))).filter
        (fun s => decide (s.net_edge = k))) ∧
    get_best_opportunity feeCfg0 tradingCfg0 20 [mktB, mktA] =
      (scan_all_markets feeCfg0 tradingCfg0 20 [mktB, mktA]).head? :=
  C5_scan_ranking_amended feeCfg0 tradingCfg0 20 [mktB, mktA]

/-- Counterexample to C5 as stated: markets iterated in the order "b",
"a" with equal net edges produce the scan result ["b", "a"] — equal-edge
ties stay in iteration order, and "b" does not lexicographically precede
"a", so ties are not broken by lexicographic `condition_id`. -/
theorem C5_tie_break_counterexample :
    (scan_all_markets feeCfg0 tradingCfg0 20 [mktB, mktA]).map
        (fun s => s.condition_id) = ["b", "a"] ∧
    (scan_all_markets feeCfg0 tradingCfg0 20 [mktB, mktA]).map
        (fun s => s.net_edge) = [7/250, 7/250] ∧
    strLexLe "b" "a" = false := by
  have hb : check_market feeCfg0 tradingCfg0 20 mktB = some sigB := by
    norm_num [check_market, MarketBook.is_stale, ageGt, TokenBook.age_seconds,
      MarketBook.yes_best_ask, MarketBook.no_best_ask, TokenBook.best_ask,
      BookSide.best_price, BookSide.best_size, MarketBook.get_executable_size,
      calculate_fees, mktB, tieMkt, sampleBook, feeCfg0, tradingCfg0, sigB]
  have ha : check_market feeCfg0 tradingCfg0 20 mktA = some sigA := by
    norm_num [check_market, MarketBook.is_stale, ageGt, TokenBook.age_seconds,
      MarketBook.yes_best_ask, MarketBook.no_best_ask, TokenBook.best_ask,
      BookSide.best_price, BookSide.best_size, MarketBook.get_executable_size,
      calculate_fees, mktA, tieMkt, sampleBook, feeCfg0, tradingCfg0, sigA]
  have hscan : scan_all_markets feeCfg0 tradingCfg0 20 [mktB, mktA] = [sigB, sigA] := by
    unfold scan_all_markets
    rw [List.filterMap_cons, hb, List.filterMap_cons, ha, List.filterMap_nil]
    norm_num [List.filter_cons, sortByEdge, insertByEdge, sigB, sigA, tradingCfg0]
  rw [hscan]
  refine ⟨by norm_num [sigB, sigA], by norm_num [sigB, sigA], by decide⟩

/-! ## Theorems: risk governor (C6, C7) -/

theorem update_daily_stats_kill (today : String) (pnl : ℚ) (x : RMState) :
    (update_daily_stats today pnl x).kill_switch_active = x.kill_switch_active := by
  unfold update_daily_stats
  rfl

theorem get_daily_pnl_snd_kill (today : String) (x : RMState) :
    (get_daily_pnl today x).2.kill_switch_active = x.kill_switch_active := by
  unfold get_daily_pnl
  split <;> rfl

theorem get_daily_pnl_update (target today : String) (pnl : ℚ) (x : RMState) :
    get_daily_pnl target (update_daily_stats today pnl x) =
      (daily_pnl_of (update_daily_stats today pnl x), update_daily_stats today pnl x) := by
  unfold update_daily_stats get_daily_pnl daily_pnl_of
  rfl

theorem check_can_trade_of_kill (cfg : RiskConfig) (trading : TradingConfig)
    (pos : PositionsView) (now : ℚ) (today : String) {s : RMState}
    (h : s.kill_switch_active = true) :
    check_can_trade cfg trading pos now today s =
      (RiskCheck.fail RiskViolation.KILL_SWITCH_TRIGGERED, s) := by
  unfold check_can_trade
  rw [if_pos h]

theorem riskStep_preserves_kill {cfg : RiskConfig} {trading : TradingConfig} {s : RMState}
    (h : s.kill_switch_active = true) (op : RiskOp) (hop : op ≠ RiskOp.resetKillSwitch) :
    (riskStep cfg trading s op).kill_switch_active = true := by
  cases op with
  | recordTrade now today success pnl =>
    simp only [riskStep, record_trade]
    split_ifs
    · rw [update_daily_stats_kill]; exact h
    · rfl
    · exact h
  | recordPnl today pnl =>
    simp only [riskStep, record_pnl, get_daily_pnl_update]
    split_ifs
    · rfl
    · rw [update_daily_stats_kill]; exact h
  | checkCanTrade pos now today =>
    simp only [riskStep]
    rw [check_can_trade_of_kill cfg trading pos now today h]
    exact h
  | runHealthCheck now today =>
    simp only [riskStep, run_health_check]
    rw [get_daily_pnl_snd_kill]
    exact h
  | updateWsStatus c t =>
    simp only [riskStep, update_ws_status]
    split_ifs <;> exact h
  | resetKillSwitch => exact absurd rfl hop

theorem foldl_riskStep_preserves_kill (cfg : RiskConfig) (trading : TradingConfig)
    (ops : List RiskOp) :
    ∀ s : RMState, s.kill_switch_active = true →
      (∀ op ∈ ops, op ≠ RiskOp.resetKillSwitch) →
      (ops.foldl (riskStep cfg trading) s).kill_switch_active = true := by
  induction ops with
  | nil => intro s h _; exact h
  | cons op rest ih =>
    intro s h hops
    simp only [List.foldl_cons]
    exact ih _ (riskStep_preserves_kill h op (hops op (List.mem_cons_self _ _)))
      (fun o ho => hops o (List.mem_cons_of_mem _ ho))

/-- Claim C6: a `record_pnl` call that takes today's realised P&L strictly
below `−kill_switch_loss_threshold` latches the kill-switch during that
same call; once latched, any sequence of manager operations not containing
`reset_kill_switch` leaves it latched and every `check_can_trade` returns
the KILL_SWITCH_TRIGGERED violation; `reset_kill_switch` is the only
operation that clears it. -/
theorem C6_kill_switch_latching (cfg : RiskConfig) (trading : TradingConfig) :
    (∀ (s : RMState) (today : String) (pnl : ℚ),
      daily_pnl_of (record_pnl cfg today pnl s) < -cfg.kill_switch_loss_threshold →
      (record_pnl cfg today pnl s).kill_switch_active = true) ∧
    (∀ (s : RMState) (ops : List RiskOp), s.kill_switch_active = true →
      (∀ op ∈ ops, op ≠ RiskOp.resetKillSwitch) →
      ((ops.foldl (riskStep cfg trading) s).kill_switch_active = true ∧
        ∀ (pos : PositionsView) (now : ℚ) (today : String),
          (check_can_trade cfg trading pos now today
            (ops.foldl (riskStep cfg trading) s)).1 =
          RiskCheck.fail RiskViolation.KILL_SWITCH_TRIGGERED)) ∧
    (∀ s : RMState, (reset_kill_switch s).kill_switch_active = false) := by
  refine ⟨?_, ?_, fun s => rfl⟩
  · intro s today pnl h
    simp only [record_pnl, get_daily_pnl_update] at h ⊢
    by_cases hc :
        daily_pnl_of (update_daily_stats today pnl s) < -cfg.kill_switch_loss_threshold
    · rw [if_pos hc]; rfl
    · rw [if_neg hc] at h
      exact absurd h hc
  · intro s ops h hops
    have hk := foldl_riskStep_preserves_kill cfg trading ops s h hops
    refine ⟨hk, fun pos now today => ?_⟩
    rw [check_can_trade_of_kill cfg trading pos now today hk]

/-- Concrete instantiation of C6: a −250 P&L record latches (threshold
200), the latch survives a batch of non-reset operations, gating stays on,
and the manual reset clears it. -/
theorem C6_kill_switch_latching_witness :
    (record_pnl riskCfg0 "2026-10-12" (-250) RMState.init).kill_switch_active = true ∧
    ((ops6.foldl (riskStep riskCfg0 tradingCfg0) rmKill).kill_switch_active = true ∧
      (check_can_trade riskCfg0 tradingCfg0 posView0 9 "2026-10-12"
        (ops6.foldl (riskStep riskCfg0 tradingCfg0) rmKill)).1 =
      RiskCheck.fail RiskViolation.KILL_SWITCH_TRIGGERED) ∧
    (reset_kill_switch rmKill).kill_switch_active = false := by
  have h := C6_kill_switch_latching riskCfg0 tradingCfg0
  have hlatch : daily_pnl_of (record_pnl riskCfg0 "2026-10-12" (-250) RMState.init) <
      -riskCfg0.kill_switch_loss_threshold := by
    norm_num [record_pnl, update_daily_stats, get_daily_pnl, daily_pnl_of, RMState.init,
      init_daily_stats, riskCfg0, trigger_kill_switch]
  have hkill : rmKill.kill_switch_active = true := by
    rw [show rmKill = record_pnl riskCfg0 "2026-10-12" (-250) RMState.init from rfl]
    exact h.1 RMState.init "2026-10-12" (-250) hlatch
  have hops : ∀ op ∈ ops6, op ≠ RiskOp.resetKillSwitch := by
    intro op hop
    simp only [ops6, List.mem_cons, List.mem_singleton] at hop
    rcases hop with rfl | rfl | rfl | rfl | rfl | hop
    · intro hc; cases hc
    · intro hc; cases hc
    · intro hc; cases hc
    · intro hc; cases hc
    · intro hc; cases hc
    · cases hop
  have h2 := h.2.1 rmKill ops6 hkill hops
  exact ⟨h.1 RMState.init "2026-10-12" (-250) hlatch,
    ⟨h2.1, h2.2 posView0 9 "2026-10-12"⟩, h.2.2 rmKill⟩

/-- Claim C7 (amended): `check_can_trade` evaluates its checks in the
fixed order kill-switch, cooldown, open-pair cap, daily loss, total
exposure, consecutive failures, returning the first failing one; when the
first three pass and today's realised P&L is *strictly below*
`−max_daily_loss` (the code compares with `<`, not `≤`), it returns the
MAX_DAILY_LOSS violation and latches the kill-switch in the same call. -/
theorem C7_gate_order_amended (cfg : RiskConfig) (trading : TradingConfig)
    (pos : PositionsView) (now : ℚ) (today : String) (s : RMState) :
    (s.kill_switch_active = true →
      (check_can_trade cfg trading pos now today s).1 =
        RiskCheck.fail RiskViolation.KILL_SWITCH_TRIGGERED) ∧
    (s.kill_switch_active = false → check_cooldown trading now s = false →
      (check_can_trade cfg trading pos now today s).1 =
        RiskCheck.fail RiskViolation.COOLDOWN_ACTIVE) ∧
    (s.kill_switch_active = false → check_cooldown trading now s = true →
      pos.can_open_new_position = false →
      (check_can_trade cfg trading pos now today s).1 =
        RiskCheck.fail RiskViolation.MAX_OPEN_PAIRS) ∧
    (s.kill_switch_active = false → check_cooldown trading now s = true →
      pos.can_open_new_position = true →
      (get_daily_pnl today s).1 < -cfg.max_daily_loss →
      (check_can_trade cfg trading pos now today s).1 =
        RiskCheck.fail RiskViolation.MAX_DAILY_LOSS ∧
      (check_can_trade cfg trading pos now today s).2.kill_switch_active = true) ∧
    (s.kill_switch_active = false → check_cooldown trading now s = true →
      pos.can_open_new_position = true →
      ¬ ((get_daily_pnl today s).1 < -cfg.max_daily_loss) →
      cfg.max_position_value ≤ pos.total_exposure →
      (check_can_trade cfg trading pos now today s).1 =
        RiskCheck.fail RiskViolation.MAX_POSITION_VALUE) ∧
    (s.kill_switch_active = false → check_cooldown trading now s = true →
      pos.can_open_new_position = true →
      ¬ ((get_daily_pnl today s).1 < -cfg.max_daily_loss) →
      ¬ (cfg.max_position_value ≤ pos.total_exposure) →
      cfg.max_consecutive_failures ≤ s.consecutive_failures →
      (check_can_trade cfg trading pos now today s).1 =
        RiskCheck.fail RiskViolation.CONSECUTIVE_FAILURES) ∧
    (s.kill_switch_active = false → check_cooldown trading now s = true →
      pos.can_open_new_position = true →
      ¬ ((get_daily_pnl today s).1 < -cfg.max_daily_loss) →
      ¬ (cfg.max_position_value ≤ pos.total_exposure) →
      ¬ (cfg.max_consecutive_failures ≤ s.consecutive_failures) →
      (check_can_trade cfg trading pos now today s).1 = RiskCheck.ok) := by
  refine ⟨?_, ?_, ?_, ?_, ?_, ?_, ?_⟩
  · intro h1
    simp [check_can_trade, h1]
  · intro h1 h2
    simp [check_can_trade, h1, h2]
  · intro h1 h2 h3
    simp [check_can_trade, h1, h2, h3]
  · intro h1 h2 h3 h4
    constructor <;> simp [check_can_trade, trigger_kill_switch, h1, h2, h3, h4]
  · intro h1 h2 h3 h4 h5
    simp [check_can_trade, h1, h2, h3, h4, h5]
  · intro h1 h2 h3 h4 h5 h6
    simp [check_can_trade, h1, h2, h3, h4, h5, h6]
  · intro h1 h2 h3 h4 h5 h6
    simp [check_can_trade, h1, h2, h3, h4, h5, h6]

/-- Counterexample to C7 as stated: with the first three checks passing
and today's realised P&L exactly −max_daily_loss (−500), the gate does
not return MAX_DAILY_LOSS — it passes and does not latch, because the code
compares strictly. -/
theorem C7_boundary_counterexample :
    (get_daily_pnl "2026-10-12" rmAtLimit).1 ≤ -riskCfg0.max_daily_loss ∧
    rmAtLimit.kill_switch_active = false ∧
    check_cooldown tradingCfg0 5 rmAtLimit = true ∧
    posView0.can_open_new_position = true ∧
    (check_can_trade riskCfg0 tradingCfg0 posView0 5 "2026-10-12" rmAtLimit).1 =
      RiskCheck.ok ∧
    (check_can_trade riskCfg0 tradingCfg0 posView0 5 "2026-10-12"
      rmAtLimit).2.kill_switch_active = false := by
  norm_num [check_can_trade, get_daily_pnl, check_cooldown, rmAtLimit, riskCfg0,
    tradingCfg0, posView0, RMState.init, init_daily_stats, RiskCheck.ok]

/-- Concrete instantiation of C7 (amended): at daily P&L −501 the gate
fails with MAX_DAILY_LOSS and latches the kill-switch in the same call. -/
theorem C7_gate_order_amended_witness :
    (check_can_trade riskCfg0 tradingCfg0 posView0 5 "2026-10-12" rmBelow).1 =
      RiskCheck.fail RiskViolation.MAX_DAILY_LOSS ∧
    (check_can_trade riskCfg0 tradingCfg0 posView0 5 "2026-10-12"
      rmBelow).2.kill_switch_active = true :=
  (C7_gate_order_amended riskCfg0 tradingCfg0 posView0 5 "2026-10-12" rmBelow).2.2.2.1
    (by norm_num [rmBelow, RMState.init])
    (by norm_num [check_cooldown, rmBelow, RMState.init])
    (by norm_num [posView0])
    (by norm_num [get_daily_pnl, rmBelow, RMState.init, init_daily_stats, riskCfg0])

/-! ## Theorems: convergence exit (C8) -/

/-- Claim C8: `should_exit` returns `(true, "market_not_found")` when the
market is absent; with the market present it returns a `false` (hold)
decision when either best bid is absent; with both bids present it
returns `(true, "spread_converged")` exactly when
`yes_bid + no_bid ≥ 1 − threshold`, `(false, "stale_data")` when not
converged and the market is stale, and `(false, "hold")` otherwise. -/
theorem C8_should_exit_cases (threshold now : ℚ) (mkt : Option MarketBook) :
    (mkt = none → should_exit threshold now mkt = (true, "market_not_found")) ∧
    (∀ m, mkt = some m →
      ((m.yes_book.best_bid = none ∨ m.no_book.best_bid = none) →
        (should_exit threshold now mkt).1 = false) ∧
      (∀ yb nb, m.yes_book.best_bid = some yb → m.no_book.best_bid = some nb →
        ((should_exit threshold now mkt = (true, "spread_converged")) ↔
          1 - threshold ≤ yb + nb) ∧
        (¬ (1 - threshold ≤ yb + nb) → m.is_stale now = true →
          should_exit threshold now mkt = (false, "stale_data")) ∧
        (¬ (1 - threshold ≤ yb + nb) → m.is_stale now = false →
          should_exit threshold now mkt = (false, "hold")))) := by
  constructor
  · intro h; rw [h]; rfl
  · intro m hm
    subst hm
    constructor
    · intro hmiss
      rcases hyb : m.yes_book.best_bid with _ | yb
      · simp [should_exit, hyb]
      · rcases hnb : m.no_book.best_bid with _ | nb
        · simp [should_exit, hyb, hnb]
        · exfalso
          rcases hmiss with h | h
          · rw [hyb] at h; exact absurd h (by simp)
          · rw [hnb] at h; exact absurd h (by simp)
    · intro yb nb hyb hnb
      have hred : should_exit threshold now (some m) =
          (if 1 - threshold ≤ yb + nb then (true, "spread_converged")
           else if m.is_stale now then (false, "stale_data") else (false, "hold")) := by
        simp only [should_exit, hyb, hnb]
      rw [hred]
      refine ⟨?_, ?_, ?_⟩
      · by_cases hc : 1 - threshold ≤ yb + nb
        · rw [if_pos hc]; simp [hc]
        · rw [if_neg hc]
          constructor
          · intro he
            split_ifs at he <;> simp at he
          · intro hc2; exact absurd hc2 hc
      · intro hc hst
        rw [if_neg hc, if_pos hst]
      · intro hc hst
        rw [if_neg hc, if_neg (by simp [hst])]

/-- Concrete instantiation of C8: the converged market `mkt3` triggers
`spread_converged`; an absent market yields `market_not_found`. -/
theorem C8_should_exit_cases_witness :
    should_exit (1/1000) 20 (some mkt3) = (true, "spread_converged") ∧
    should_exit (1/1000) 20 (none : Option MarketBook) = (true, "market_not_found") := by
  have h := C8_should_exit_cases (1/1000) 20 (some mkt3)
  have h2 := C8_should_exit_cases (1/1000) 20 (none : Option MarketBook)
  refine ⟨?_, h2.1 rfl⟩
  have hyb : mkt3.yes_book.best_bid = some (1/2) := by
    norm_num [mkt3, sampleBook, TokenBook.best_bid, BookSide.best_price]
  have hnb : mkt3.no_book.best_bid = some (499/1000) := by
    norm_num [mkt3, sampleBook, TokenBook.best_bid, BookSide.best_price]
  exact (((h.2 mkt3 rfl).2 (1/2) (499/1000) hyb hnb).1).mpr (by norm_num)

end PolMark
